import Mathlib

/-
Shallow embedding of the scalibur library (src/scalibur), a Python port of
Scala's Option and Try types:

  * src/scalibur/option.py          : Option / Some / Nothing
  * src/scalibur/tryable.py         : Tryable / Success / Failure / Try
  * src/scalibur/decorator/_singleton.py : the _Singleton wrapper and the
    singleton decorator applied to the Nothing class (option.py imports
    singleton from scalibur.decorator; src/scalibur/singleton.py is a
    duplicate of the same code with debug printing added).

Python exceptions are embedded as the type Exc, fallible code returns
Except (Exc e) _, and the mutable fields of the code (the _instance slot
of a _Singleton wrapper, the _has_next flag of Success) are passed
explicitly.  Object identity (Python `is`) is embedded by tagging each
construction with a fresh allocation id.
-/

namespace Scalibur

/-- The exceptions the embedded code can raise or store.  `user` covers
arbitrary caller exceptions captured by the Try adapter (e.g. ValueError);
`unsupportedOperation` is tryable.py's UnsupportedOperationException
carrying its message; `notImplementedError` is Python's
NotImplementedError; `attributeError` is Python's AttributeError carrying
the missing attribute's name. -/
inductive Exc (ε : Type) where
  | user (e : ε)
  | unsupportedOperation (msg : String)
  | notImplementedError
  | attributeError (attr : String)
deriving DecidableEq, Repr

/-- Instances of the Option hierarchy of src/scalibur/option.py: `Some`
holds the `_value` slot set by `Some.__init__`; `Nothing` is an instance
of the class wrapped by the singleton decorator and carries no payload. -/
inductive OptionInst (α : Type) where
  | Some (v : α)
  | Nothing
deriving DecidableEq, Repr

/-- A Python object together with its identity: `oid` models `id(x)`, so
`a is b` is embedded as `a.oid = b.oid` (with the embedding allocating a
fresh `oid` at each construction). -/
structure PyObj (α : Type) where
  oid : Nat
  val : α
deriving DecidableEq, Repr

/-- The state of a `_Singleton` wrapper object
(src/scalibur/decorator/_singleton.py): `ctor` is the `_cls` slot (the
wrapped class, embedded as the construction function run by
`self._cls(*args, **kwargs)`), and `inst` is the `_instance` slot,
initialized to `None` by `_Singleton.__init__`. -/
structure SingletonWrapper (ι α : Type) where
  ctor : ι → α
  inst : Option (PyObj α)

/-- `_Singleton.__call__(self, *args, **kwargs)`: if `self._instance is
None`, construct `self._cls(*args, **kwargs)` (here: allocate a fresh
object with id `nextId` holding `ctor args`) and store it in
`self._instance`; then return `self._instance`.  Returns the result, the
updated wrapper state and the next free allocation id. -/
def SingletonWrapper.call (s : SingletonWrapper ι α) (args : ι) (nextId : Nat) :
    PyObj α × SingletonWrapper ι α × Nat :=
  match s.inst with
  | none =>
      let obj : PyObj α := ⟨nextId, s.ctor args⟩
      (obj, ⟨s.ctor, some obj⟩, nextId + 1)
  | some obj => (obj, s, nextId)

/-- A sequence of `__call__` invocations on the same `_Singleton` wrapper,
threading the wrapper state and the allocation counter; collects the
returned instances in order. -/
def SingletonWrapper.callMany (s : SingletonWrapper ι α) (nextId : Nat) :
    List ι → List (PyObj α) × SingletonWrapper ι α × Nat
  | [] => ([], s, nextId)
  | a :: rest =>
      let r := s.call a nextId
      let rr := r.2.1.callMany r.2.2 rest
      (r.1 :: rr.1, rr.2)

/-- The attribute names present on a `_Singleton` wrapper object: the
instance slots `_cls` and `_instance` set by `__init__`, the class
attribute `_singletons`, and the methods.  `_Singleton` never sets a
`__wrapped__` attribute (it does not use functools.wraps), which is what
`Option.is_empty` in option.py tries to read. -/
def singletonAttrs : List String :=
  ["_cls", "_instance", "_singletons", "apply", "__init__", "__call__"]

/-- Attribute lookup on the module-level name `Nothing` of option.py,
which after the decorator `@singleton` is a `_Singleton` wrapper object:
returns the attribute name on success, raises AttributeError when the
attribute does not exist on the wrapper. -/
def singletonGetattr (name : String) : Except (Exc ε) String :=
  if name ∈ singletonAttrs then Except.ok name else Except.error (Exc.attributeError name)

/-- `Option.is_defined` (option.py): `isinstance(self, Some)`. -/
def OptionInst.is_defined : OptionInst α → Bool
  | OptionInst.Some _ => true
  | OptionInst.Nothing => false

/-- `Option.is_empty` (option.py): evaluates `Nothing.__wrapped__` — an
attribute lookup on the `_Singleton` wrapper bound to the module-level
name `Nothing` — and, had that lookup succeeded, would test
`isinstance(self, Nothing.__wrapped__)` against the wrapped class. -/
def OptionInst.is_empty (o : OptionInst α) : Except (Exc ε) Bool :=
  match singletonGetattr "__wrapped__" with
  | Except.error e => Except.error e
  | Except.ok _ =>
      Except.ok (match o with
        | OptionInst.Some _ => false
        | OptionInst.Nothing => true)

/-- `get` on an Option instance: `Some.get` returns `self._value`;
`Nothing.get` raises NotImplementedError. -/
def OptionInst.get : OptionInst α → Except (Exc ε) α
  | OptionInst.Some v => Except.ok v
  | OptionInst.Nothing => Except.error Exc.notImplementedError

/-- `Option.get_or_else` (option.py): `default_value if self.is_empty
else self.get()` — the `self.is_empty` property is evaluated first, and
any exception it raises propagates. -/
def OptionInst.get_or_else (o : OptionInst α) (default_value : α) : Except (Exc ε) α :=
  match o.is_empty (ε := ε) with
  | Except.error e => Except.error e
  | Except.ok b => if b then Except.ok default_value else o.get

/-- The `_Singleton` wrapper bound to the module-level name `Nothing` by
`@singleton class Nothing` in option.py: its `_cls` slot is the wrapped
Nothing class (whose constructor takes no arguments and builds a bare
instance), and its `_instance` slot starts as `None`. -/
def NothingWrapper : SingletonWrapper Unit (OptionInst Unit) :=
  ⟨fun _ => OptionInst.Nothing, none⟩

/-- Instances of the Tryable hierarchy of src/scalibur/tryable.py:
`Success` holds the `_value` slot and the mutable `_has_next` flag set to
`true` by `Success.__init__`; `Failure` holds the captured exception in
its `_value` slot. -/
inductive Tryable (α ε : Type) where
  | Success (v : α) (hasNext : Bool)
  | Failure (e : Exc ε)
deriving DecidableEq, Repr

/-- `Tryable.is_failure`: `isinstance(self, Failure)`. -/
def Tryable.is_failure : Tryable α ε → Bool
  | Tryable.Failure _ => true
  | _ => false

/-- `Tryable.is_success`: `isinstance(self, Success)`. -/
def Tryable.is_success : Tryable α ε → Bool
  | Tryable.Success _ _ => true
  | _ => false

/-- `get` on a Tryable: `Success.get` returns `self._value`;
`Failure.get` does `raise self._value`, re-raising the stored exception
object itself. -/
def Tryable.get : Tryable α ε → Except (Exc ε) α
  | Tryable.Success v _ => Except.ok v
  | Tryable.Failure e => Except.error e

/-- `Tryable.failed` (tryable.py): `Success(self._value) if
self.is_failure else Failure(UnsupportedOperationException
("Success.failed"))`.  A pure function of the receiver: it constructs a
new instance in the opposite family and leaves the receiver untouched.
For a Failure the stored exception is promoted to the payload of a fresh
Success (whose constructor sets `_has_next = True`); the result's value
type is therefore the exception type. -/
def Tryable.failed : Tryable α ε → Tryable (Exc ε) ε
  | Tryable.Failure e => Tryable.Success e true
  | Tryable.Success _ _ =>
      Tryable.Failure (Exc.unsupportedOperation "Success.failed")

/-- `Tryable.to_option` (tryable.py): `Nothing() if self.is_failure else
Some(self.get())`.  `Nothing()` invokes the `_Singleton` wrapper, which
returns the cached instance of the wrapped Nothing class; the embedding
returns the Nothing variant (identity of that instance is handled by the
SingletonWrapper embedding). -/
def Tryable.to_option (t : Tryable α ε) : Except (Exc ε) (OptionInst α) :=
  if t.is_failure then Except.ok OptionInst.Nothing
  else Except.map OptionInst.Some t.get

/-- `Tryable.__iter__`: `return self`. -/
def Tryable.iter (t : Tryable α ε) : Tryable α ε := t

/-- `__next__` on a Tryable: `Success.__next__` returns `self._value`
once, clearing `_has_next`, and on the next call sets `_has_next` back to
`True` and raises StopIteration; `Failure.__next__` raises StopIteration
immediately.  The raised StopIteration is embedded as `none`; the updated
receiver (its mutable `_has_next` flag) is returned alongside. -/
def Tryable.next : Tryable α ε → Option α × Tryable α ε
  | Tryable.Success v true => (some v, Tryable.Success v false)
  | Tryable.Success v false => (none, Tryable.Success v true)
  | Tryable.Failure e => (none, Tryable.Failure e)

/-- One full iteration pass over a Tryable, as a for-loop would perform
it: repeatedly call `__next__`, collecting yielded values, until
StopIteration is raised (or the fuel runs out).  Returns the collected
values and the receiver's final state. -/
def Tryable.runIter (fuel : Nat) (t : Tryable α ε) : List α × Tryable α ε :=
  match fuel with
  | 0 => ([], t)
  | Nat.succ k =>
      match t.next with
      | (some v, t1) =>
          let r := t1.runIter k
          (v :: r.1, r.2)
      | (none, t1) => ([], t1)

/-- `Try(f)` (tryable.py): returns a wrapper that calls `f` inside `try`,
returning `Success(f(*args, **kwargs))` on normal return and `Failure(e)`
for any exception `e` caught by the broad `except Exception as e`. -/
def Try (f : θ → Except (Exc ε) α) : θ → Tryable α ε := fun args =>
  match f args with
  | Except.ok r => Tryable.Success r true
  | Except.error e => Tryable.Failure e

/-- Helper: once the `_instance` slot of a `_Singleton` wrapper is
populated, every further `__call__` returns the cached instance and
constructs nothing, whatever the arguments. -/
theorem callMany_cached (ctor : ι → α) (obj : PyObj α) (n : Nat) (l : List ι) :
    SingletonWrapper.callMany ⟨ctor, some obj⟩ n l
      = (List.replicate l.length obj, ⟨ctor, some obj⟩, n) := by
  induction l with
  | nil => rfl
  | cons a rest ih =>
      simp [SingletonWrapper.callMany, SingletonWrapper.call, ih, List.replicate]

/-- C1: the claim says `is_empty` is true exactly on the Nothing variant,
equals the negation of `is_defined`, and never fails.  On the code it
fails on every instance: `is_empty` reads `Nothing.__wrapped__`, but the
`_Singleton` wrapper bound to the name `Nothing` never sets a
`__wrapped__` attribute, so the lookup raises AttributeError for `Some`
and `Nothing` receivers alike. -/
theorem option_is_empty_raises_attribute_error :
    OptionInst.is_empty (ε := Unit) (OptionInst.Some (1 : Nat))
        = Except.error (Exc.attributeError "__wrapped__")
      ∧ OptionInst.is_empty (ε := Unit) (OptionInst.Nothing (α := Nat))
        = Except.error (Exc.attributeError "__wrapped__") := by
  constructor <;> rfl

/-- C2: the claim says `get_or_else` returns the wrapped value on `Some`,
the default on `Nothing`, and never fails.  On the code it fails on both
variants: `get_or_else` evaluates the `is_empty` property first, which
raises AttributeError (missing `__wrapped__` on the singleton wrapper),
and that exception propagates out of `get_or_else`. -/
theorem option_get_or_else_raises_attribute_error :
    OptionInst.get_or_else (ε := Unit) (OptionInst.Some (1 : Nat)) 0
        = Except.error (Exc.attributeError "__wrapped__")
      ∧ OptionInst.get_or_else (ε := Unit) (OptionInst.Nothing (α := Nat)) 0
        = Except.error (Exc.attributeError "__wrapped__") := by
  constructor <;> rfl

/-- C3: for any wrapped class and any sequence of `__call__` invocations
on a fresh `_Singleton` wrapper, the first call constructs the instance
from the supplied arguments and every call returns that same first
instance (same allocation id), with the allocation counter advanced by
exactly one — the class is constructed at most once; in particular two
singleton-path constructions of the empty Option variant return the
identical Nothing instance. -/
theorem singleton_constructs_once :
    (∀ (ι α : Type) (ctor : ι → α) (n : Nat) (a : ι) (rest : List ι),
      SingletonWrapper.callMany ⟨ctor, none⟩ n (a :: rest)
        = (List.replicate (rest.length + 1) ⟨n, ctor a⟩,
            ⟨ctor, some ⟨n, ctor a⟩⟩, n + 1))
    ∧ (let r1 := NothingWrapper.call () 0
       let r2 := r1.2.1.call () r1.2.2
       r2.1 = r1.1 ∧ r2.1.oid = r1.1.oid ∧ r1.1.val = OptionInst.Nothing) := by
  constructor
  · intro ι α ctor n a rest
    simp [SingletonWrapper.callMany, SingletonWrapper.call,
      callMany_cached, List.replicate]
  · exact ⟨rfl, rfl, rfl⟩

/-- C4: the operation returned by the Try adapter never raises: for every
embedded function and argument, either the function returns a value `r`
and the wrapper returns `Success(r)`, or it raises an exception `e` and
the wrapper returns a `Failure` storing that exact exception object. -/
theorem try_adapter_never_raises (θ ε α : Type)
    (f : θ → Except (Exc ε) α) (args : θ) :
    (∃ r, f args = Except.ok r ∧ Try f args = Tryable.Success r true)
      ∨ (∃ e, f args = Except.error e ∧ Try f args = Tryable.Failure e) := by
  cases h : f args with
  | ok r => exact Or.inl ⟨r, rfl, by simp [Try, h]⟩
  | error e => exact Or.inr ⟨e, rfl, by simp [Try, h]⟩

/-- C5: `failed` inverts the hierarchy without touching the receiver (it
is a pure function of it): `Failure(e).failed()` is `Success(e)` (with a
fresh `_has_next = True` flag), and `Success(v).failed()` is a `Failure`
storing an UnsupportedOperationException with message "Success.failed";
neither direction raises (the embedding is total). -/
theorem tryable_failed_inverts (α ε : Type) :
    (∀ (e : Exc ε), Tryable.failed (Tryable.Failure (α := α) e)
        = Tryable.Success e true)
      ∧ (∀ (v : α) (hn : Bool), Tryable.failed (Tryable.Success (ε := ε) v hn)
        = Tryable.Failure (Exc.unsupportedOperation "Success.failed")) :=
  ⟨fun _ => rfl, fun _ _ => rfl⟩

/-- C6: `get` returns the wrapped value on a Success and re-raises the
stored exception object itself on a Failure. -/
theorem tryable_get_extracts_or_reraises (α ε : Type) :
    (∀ (v : α) (hn : Bool), Tryable.get (Tryable.Success (ε := ε) v hn)
        = Except.ok v)
      ∧ (∀ (e : Exc ε), Tryable.get (Tryable.Failure (α := α) e)
        = Except.error e) :=
  ⟨fun _ _ => rfl, fun _ => rfl⟩

/-- C7: `to_option` maps `Success(v)` to `Some(v)` and `Failure(e)` to
the Nothing variant, discarding the stored exception, and never raises
(it returns normally on every Tryable). -/
theorem tryable_to_option_maps (α ε : Type) :
    (∀ (v : α) (hn : Bool), Tryable.to_option (Tryable.Success (ε := ε) v hn)
        = Except.ok (OptionInst.Some v))
      ∧ (∀ (e : Exc ε), Tryable.to_option (Tryable.Failure (α := α) e)
        = Except.ok OptionInst.Nothing)
      ∧ (∀ (t : Tryable α ε), ∃ o, t.to_option = Except.ok o) := by
  refine ⟨fun _ _ => rfl, fun _ => rfl, fun t => ?_⟩
  cases t with
  | Success v hn => exact ⟨OptionInst.Some v, rfl⟩
  | Failure e => exact ⟨OptionInst.Nothing, rfl⟩

/-- C8: the Nothing instance obtained through the singleton path (the
first `__call__` on the wrapper constructs it) has `is_defined = False`,
and `get()` on it raises NotImplementedError — it never returns a
value. -/
theorem nothing_is_undefined_and_get_fails :
    (let r := NothingWrapper.call () 0
     r.1.val = OptionInst.Nothing
       ∧ r.1.val.is_defined = false
       ∧ r.1.val.get (ε := Unit) = Except.error Exc.notImplementedError)
    ∧ (∀ (α : Type), OptionInst.is_defined (OptionInst.Nothing (α := α)) = false
       ∧ OptionInst.get (ε := Unit) (OptionInst.Nothing (α := α))
          = Except.error Exc.notImplementedError) :=
  ⟨⟨rfl, rfl, rfl⟩, fun _ => ⟨rfl, rfl⟩⟩

/-- C9: a full iteration pass (with enough fuel for the at most two
`__next__` calls a pass needs) over a freshly constructed `Success(v)`
yields exactly `[v]` and leaves the instance back in its initial state,
so a second full pass over the same instance again yields `[v]`; a pass
over `Failure(e)` yields `[]`. -/
theorem success_iteration_restartable (α ε : Type) (v : α) (e : Exc ε)
    (fuel : Nat) (h : 2 ≤ fuel) :
    Tryable.runIter fuel (Tryable.Success (ε := ε) v true)
        = ([v], Tryable.Success v true)
      ∧ (Tryable.runIter fuel
          ((Tryable.runIter fuel (Tryable.Success (ε := ε) v true)).2)).1 = [v]
      ∧ Tryable.runIter fuel (Tryable.Failure (α := α) e)
        = ([], Tryable.Failure e) := by
  obtain ⟨k, rfl⟩ : ∃ k, fuel = k + 2 := ⟨fuel - 2, by omega⟩
  refine ⟨?_, ?_, ?_⟩ <;>
    simp [Tryable.runIter, Tryable.next]

/-- Witness for C9 at `Success(5)`, `Failure(user ())` and fuel 2. -/
theorem success_iteration_restartable_witness :
    (2 : Nat) ≤ 2
      ∧ (Tryable.runIter 2 (Tryable.Success (ε := Unit) (5 : Nat) true)
          = ([5], Tryable.Success 5 true)
        ∧ (Tryable.runIter 2
            ((Tryable.runIter 2 (Tryable.Success (ε := Unit) (5 : Nat) true)).2)).1
          = [5]
        ∧ Tryable.runIter 2 (Tryable.Failure (α := Nat) (Exc.user ()))
          = ([], Tryable.Failure (Exc.user ()))) :=
  ⟨by decide,
    success_iteration_restartable Nat Unit 5 (Exc.user ()) 2 (by decide)⟩

/-- C10: requesting an iterator from a Tryable returns the receiver
itself, so the iteration cursor (`_has_next`) lives on the instance:
taking a "new" iterator from a consumed Success and drawing the next
element continues the shared cursor — it raises StopIteration and resets
the flag — instead of starting a fresh independent pass that would yield
the value again. -/
theorem tryable_iter_returns_self (α ε : Type) :
    (∀ (t : Tryable α ε), t.iter = t)
      ∧ (∀ (v : α), Tryable.next (Tryable.iter (Tryable.Success (ε := ε) v false))
        = (none, Tryable.Success v true)) :=
  ⟨fun _ => rfl, fun _ => rfl⟩

end Scalibur
